import Mathlib

/-!
Shallow embedding of `src/MPU6050.py` (class `MPU6050`), an I2C driver for the
MPU-6050 accelerometer/gyroscope/thermometer.

Modelling choices:
* The device-visible state is the register file `Regs : Nat → Nat`, mapping a
  register address to the byte the bus would return for it.  SMBus byte reads
  and writes become lookups and pointwise updates of this map.
* Every method additionally returns the list of bus operations (`BusOp`) it
  performs, in order, so that sequencing and frame claims can be stated.
* Python floats are modelled by `ℚ`; every literal appearing in the source
  (36.53, 9.80665, 16384.0, 131.0, 65.5, 32.8, 16.4, ...) is exactly
  representable, and Python 3 `/` on numbers is true (non-truncating)
  division, matching `ℚ` division.
* Python boolean identity checks (`raw is True` / `g is False`) are modelled
  by `PyFlag`, which distinguishes the singletons `True` and `False` from any
  other Python value (e.g. a truthy `int`); methods whose trailing
  `if/elif` can fall through return `Option` (`none` = Python `None`).
* `print`-based diagnostics are collected into a `List String` of warnings.
-/

namespace MPU6050

/-- Register file of the device as seen over the bus: byte stored per address. -/
abbrev Regs := Nat → Nat

/-- A single bus operation performed by the driver, in order of occurrence. -/
inductive BusOp where
  | read (register : Nat)
  | write (register : Nat) (value : Nat)
deriving DecidableEq, Repr

/-- `bus.write_byte_data(address, register, value)`: pointwise register update. -/
def writeByteData (regs : Regs) (register value : Nat) : Regs :=
  fun r => if r = register then value else regs r

/-- Python value appearing as the `raw`/`g` flag argument: the singleton
`True`, the singleton `False`, or any other object (modelled here by an
integer payload), which `is True` / `is False` both reject. -/
inductive PyFlag where
  | pyTrue
  | pyFalse
  | pyInt (n : Int)
deriving DecidableEq, Repr

/- Class constants of `MPU6050` (lines 11-59 of MPU6050.py). -/

def GRAVITIY_MS2 : ℚ := 9.80665

def ACCEL_SCALE_MODIFIER_2G : ℚ := 16384.0
def ACCEL_SCALE_MODIFIER_4G : ℚ := 8192.0
def ACCEL_SCALE_MODIFIER_8G : ℚ := 4096.0
def ACCEL_SCALE_MODIFIER_16G : ℚ := 2048.0

def GYRO_SCALE_MODIFIER_250DEG : ℚ := 131.0
def GYRO_SCALE_MODIFIER_500DEG : ℚ := 65.5
def GYRO_SCALE_MODIFIER_1000DEG : ℚ := 32.8
def GYRO_SCALE_MODIFIER_2000DEG : ℚ := 16.4

def ACCEL_RANGE_2G : Nat := 0x00
def ACCEL_RANGE_4G : Nat := 0x08
def ACCEL_RANGE_8G : Nat := 0x10
def ACCEL_RANGE_16G : Nat := 0x18

def GYRO_RANGE_250DEG : Nat := 0x00
def GYRO_RANGE_500DEG : Nat := 0x08
def GYRO_RANGE_1000DEG : Nat := 0x10
def GYRO_RANGE_2000DEG : Nat := 0x18

def PWR_MGMT_1 : Nat := 0x6B
def PWR_MGMT_2 : Nat := 0x6C

def ACCEL_XOUT0 : Nat := 0x3B
def ACCEL_XOUT1 : Nat := 0x3C
def ACCEL_YOUT0 : Nat := 0x3D
def ACCEL_YOUT1 : Nat := 0x3E
def ACCEL_ZOUT0 : Nat := 0x3F
def ACCEL_ZOUT1 : Nat := 0x40

def TEMP_OUT0 : Nat := 0x41
def TEMP_OUT1 : Nat := 0x42

def GYRO_XOUT0 : Nat := 0x43
def GYRO_XOUT1 : Nat := 0x44
def GYRO_YOUT0 : Nat := 0x45
def GYRO_YOUT1 : Nat := 0x46
def GYRO_ZOUT0 : Nat := 0x47
def GYRO_ZOUT1 : Nat := 0x48

def ACCEL_CONFIG : Nat := 0x1C
def GYRO_CONFIG : Nat := 0x1B

/-- `read_i2c_word(register)` (lines 69-79): reads `register` (high byte) and
`register + 1` (low byte), composes `value = (high << 8) + low`, and if
`value >= 0x8000` returns `-((65535 - value) + 1)`, else `value`.  Returns the
value together with the bus trace of the two byte reads. -/
def read_i2c_word (regs : Regs) (register : Nat) : Int × List BusOp :=
  let high := regs register
  let low := regs (register + 1)
  let value := (high <<< 8) + low
  ((if value ≥ 0x8000 then -(((65535 : Int) - (value : Int)) + 1) else (value : Int)),
   [BusOp.read register, BusOp.read (register + 1)])

/-- `get_temp()` (lines 84-93): `rawTemp = read_i2c_word(TEMP_OUT0)`;
`actualTemp = (rawTemp / 340) + 36.53`. -/
def get_temp (regs : Regs) : ℚ × List BusOp :=
  let rawTemp := read_i2c_word regs TEMP_OUT0
  (((rawTemp.1 : ℚ) / 340) + 36.53, rawTemp.2)

/-- `set_accel_range(accelRange)` (lines 96-101): writes `0x00` then
`accelRange` to `ACCEL_CONFIG`.  Returns the updated register file and the
bus trace. -/
def set_accel_range (regs : Regs) (accelRange : Nat) : Regs × List BusOp :=
  let regs1 := writeByteData regs ACCEL_CONFIG 0x00
  let regs2 := writeByteData regs1 ACCEL_CONFIG accelRange
  (regs2, [BusOp.write ACCEL_CONFIG 0x00, BusOp.write ACCEL_CONFIG accelRange])

/-- `read_accel_range(raw)` (lines 106-122): reads `ACCEL_CONFIG`; if
`raw is True` returns the byte, elif `raw is False` maps the four known
encodings to 2/4/8/16 and anything else to -1; any other flag value falls
off the end of the function, i.e. Python returns `None` (`none`). -/
def read_accel_range (regs : Regs) (raw : PyFlag) : Option Int × List BusOp :=
  let rawData := regs ACCEL_CONFIG
  ((if raw = PyFlag.pyTrue then some (rawData : Int)
    else if raw = PyFlag.pyFalse then
      some (if rawData = ACCEL_RANGE_2G then 2
            else if rawData = ACCEL_RANGE_4G then 4
            else if rawData = ACCEL_RANGE_8G then 8
            else if rawData = ACCEL_RANGE_16G then 16
            else -1)
    else none),
   [BusOp.read ACCEL_CONFIG])

/-- `get_accel_data(g)` (lines 127-158): reads the three raw axis words, then
reads the raw accel range and resolves the scale modifier (falling back to
the 2G modifier with a printed warning on an unknown byte), divides each
axis, and returns the values in g if `g is True`, in m/s^2 if `g is False`,
and `None` (`none`) for any other flag.  Result is
(returned value, bus trace, printed warnings). -/
def get_accel_data (regs : Regs) (g : PyFlag) :
    Option (ℚ × ℚ × ℚ) × List BusOp × List String :=
  let xw := read_i2c_word regs ACCEL_XOUT0
  let yw := read_i2c_word regs ACCEL_YOUT0
  let zw := read_i2c_word regs ACCEL_ZOUT0
  let rr := read_accel_range regs PyFlag.pyTrue
  let accelRange := rr.1
  let accelScaleModifier : ℚ × List String :=
    if accelRange = some ((ACCEL_RANGE_2G : Nat) : Int) then
      (ACCEL_SCALE_MODIFIER_2G, [])
    else if accelRange = some ((ACCEL_RANGE_4G : Nat) : Int) then
      (ACCEL_SCALE_MODIFIER_4G, [])
    else if accelRange = some ((ACCEL_RANGE_8G : Nat) : Int) then
      (ACCEL_SCALE_MODIFIER_8G, [])
    else if accelRange = some ((ACCEL_RANGE_16G : Nat) : Int) then
      (ACCEL_SCALE_MODIFIER_16G, [])
    else
      (ACCEL_SCALE_MODIFIER_2G,
       ["Unkown range - accelScaleModifier set to self.ACCEL_SCALE_MODIFIER_2G"])
  let x := (xw.1 : ℚ) / accelScaleModifier.1
  let y := (yw.1 : ℚ) / accelScaleModifier.1
  let z := (zw.1 : ℚ) / accelScaleModifier.1
  ((if g = PyFlag.pyTrue then some (x, y, z)
    else if g = PyFlag.pyFalse then
      some (x * GRAVITIY_MS2, y * GRAVITIY_MS2, z * GRAVITIY_MS2)
    else none),
   xw.2 ++ yw.2 ++ zw.2 ++ rr.2,
   accelScaleModifier.2)

/-- `set_gyro_range(gyroRange)` (lines 162-167): writes `0x00` then
`gyroRange` to `GYRO_CONFIG`. -/
def set_gyro_range (regs : Regs) (gyroRange : Nat) : Regs × List BusOp :=
  let regs1 := writeByteData regs GYRO_CONFIG 0x00
  let regs2 := writeByteData regs1 GYRO_CONFIG gyroRange
  (regs2, [BusOp.write GYRO_CONFIG 0x00, BusOp.write GYRO_CONFIG gyroRange])

/-- `read_gyro_range(raw)` (lines 172-188): symmetric to `read_accel_range`
on `GYRO_CONFIG`, mapping to 250/500/1000/2000 or -1, and `None` for a flag
that is neither `True` nor `False`. -/
def read_gyro_range (regs : Regs) (raw : PyFlag) : Option Int × List BusOp :=
  let rawData := regs GYRO_CONFIG
  ((if raw = PyFlag.pyTrue then some (rawData : Int)
    else if raw = PyFlag.pyFalse then
      some (if rawData = GYRO_RANGE_250DEG then 250
            else if rawData = GYRO_RANGE_500DEG then 500
            else if rawData = GYRO_RANGE_1000DEG then 1000
            else if rawData = GYRO_RANGE_2000DEG then 2000
            else -1)
    else none),
   [BusOp.read GYRO_CONFIG])

/-- `get_gyro_data()` (lines 191-216): reads the three raw gyro words, then
the raw gyro range, resolves the scale modifier (250DEG fallback with a
printed warning on an unknown byte), divides, and always returns the dict.
Result is (returned value, bus trace, printed warnings). -/
def get_gyro_data (regs : Regs) : (ℚ × ℚ × ℚ) × List BusOp × List String :=
  let xw := read_i2c_word regs GYRO_XOUT0
  let yw := read_i2c_word regs GYRO_YOUT0
  let zw := read_i2c_word regs GYRO_ZOUT0
  let rr := read_gyro_range regs PyFlag.pyTrue
  let gyroRange := rr.1
  let gyroScaleModifier : ℚ × List String :=
    if gyroRange = some ((GYRO_RANGE_250DEG : Nat) : Int) then
      (GYRO_SCALE_MODIFIER_250DEG, [])
    else if gyroRange = some ((GYRO_RANGE_500DEG : Nat) : Int) then
      (GYRO_SCALE_MODIFIER_500DEG, [])
    else if gyroRange = some ((GYRO_RANGE_1000DEG : Nat) : Int) then
      (GYRO_SCALE_MODIFIER_1000DEG, [])
    else if gyroRange = some ((GYRO_RANGE_2000DEG : Nat) : Int) then
      (GYRO_SCALE_MODIFIER_2000DEG, [])
    else
      (GYRO_SCALE_MODIFIER_250DEG,
       ["Unkown range - gyroScaleModifier set to self.GYRO_SCALE_MODIFIER_250DEG"])
  let x := (xw.1 : ℚ) / gyroScaleModifier.1
  let y := (yw.1 : ℚ) / gyroScaleModifier.1
  let z := (zw.1 : ℚ) / gyroScaleModifier.1
  ((x, y, z), xw.2 ++ yw.2 ++ zw.2 ++ rr.2, gyroScaleModifier.2)

/-- `get_all_data()` (lines 219-224): the body evaluates `get_temp()`,
`get_accel_data()` and `get_gyro_data()` as free (unbound) names.  No global
or builtin of those names exists in MPU6050.py — they are only attributes of
the class — so the very first evaluation, `get_temp()` on line 220, raises
`NameError` before any bus operation takes place.  The embedding returns the
raised exception and the empty bus trace. -/
def get_all_data (_regs : Regs) :
    Except String ((ℚ × ℚ × ℚ) × (ℚ × ℚ × ℚ) × ℚ) × List BusOp :=
  ((Except.error "NameError: name get_temp is not defined"), [])

/-- True exactly when an `Except` value is the `error` case. -/
def exceptIsError {ε α : Type} : Except ε α → Bool
  | Except.error _ => true
  | Except.ok _ => false

/-- Two's-complement decoding of a 16-bit unsigned value, written from the
spec (§4.1/§8): the composed value unchanged when below `0x8000`, the value
minus `0x10000` otherwise.  Comparand for `read_i2c_word`. -/
def signExtend (v : Nat) : Int :=
  if v < 0x8000 then (v : Int) else (v : Int) - 0x10000

/- Concrete register files used as test fixtures. -/

/-- All registers read as `0x00`. -/
def zeroRegs : Regs := fun _ => 0

/-- All registers read as `0x05`, a byte matching no range encoding. -/
def unknownRangeRegs : Regs := fun _ => 5

/-- Registers `0` and `1` both hold `0xFF`; everything else `0x00`. -/
def wordRegsFF : Regs := fun r => if r ≤ 1 then 0xFF else 0

/-- Raw accel words (16384, -16384, 0) with the accel range byte `0x00`
(±2g): `ACCEL_XOUT0 = 0x40, ACCEL_XOUT1 = 0x00` composes to `16384`,
`ACCEL_YOUT0 = 0xC0, ACCEL_YOUT1 = 0x00` composes to `0xC000 = -16384`. -/
def accelRegs2G : Regs := fun r =>
  if r = ACCEL_XOUT0 then 0x40 else if r = ACCEL_YOUT0 then 0xC0 else 0

/-- Temperature word raw value 340 (`high = 1`, `low = 84`). -/
def tempRegs340 : Regs := fun r =>
  if r = TEMP_OUT0 then 1 else if r = TEMP_OUT1 then 84 else 0

/-- Core value lemma for `read_i2c_word`: on byte contents it is exactly the
16-bit two's-complement decoding of `high * 256 + low`. -/
lemma read_i2c_word_val (regs : Regs) (register h l : Nat)
    (eh : regs register = h) (el : regs (register + 1) = l) :
    (read_i2c_word regs register).1 = signExtend (h * 256 + l) := by
  simp only [read_i2c_word, signExtend, eh, el]
  have hv : h <<< 8 + l = h * 256 + l := by
    rw [Nat.shiftLeft_eq]
  rw [hv]
  split_ifs <;> push_cast <;> omega

/-- C1: for every pair of byte values `high` and `low`, `read_i2c_word`
returns the two's-complement decoding of the 16-bit value composed as
`(high <<< 8) ||| low`: the composed value unchanged when below `0x8000`,
the composed value minus `0x10000` otherwise; in particular composed value
`0x7FFF` decodes to 32767, `0x8000` to -32768, and `0xFFFF` to -1. -/
theorem read_i2c_word_twos_complement (regs : Regs) (register h l : Nat)
    (hh : h < 256) (hl : l < 256)
    (eh : regs register = h) (el : regs (register + 1) = l) :
    (read_i2c_word regs register).1 = signExtend ((h <<< 8) ||| l)
      ∧ signExtend 0x7FFF = 32767
      ∧ signExtend 0x8000 = -32768
      ∧ signExtend 0xFFFF = -1 := by
  refine ⟨?_, by decide, by decide, by decide⟩
  have hor : (h <<< 8) ||| l = h * 256 + l := by
    rw [Nat.shiftLeft_eq, Nat.mul_comm]
    have hb : l < 2 ^ 8 := by omega
    exact (Nat.mul_add_lt_is_or hb h).symm
  rw [hor]
  exact read_i2c_word_val regs register h l eh el

/-- Witness for C1 at `high = low = 0xFF`. -/
theorem read_i2c_word_twos_complement_witness :
    (read_i2c_word wordRegsFF 0).1 = signExtend ((0xFF <<< 8) ||| 0xFF)
      ∧ signExtend 0x7FFF = 32767
      ∧ signExtend 0x8000 = -32768
      ∧ signExtend 0xFFFF = -1 :=
  read_i2c_word_twos_complement wordRegsFF 0 0xFF 0xFF (by decide) (by decide)
    (by decide) (by decide)

/-- C2: `get_all_data` is meant to invoke the instance's three measurement
operations once each and return the (acceleration, angularRate, temperature)
triple, but the source calls `get_temp` / `get_accel_data` / `get_gyro_data`
as free names, which are unbound in the module, so every call raises
`NameError` before performing any bus operation and never produces the
triple. -/
theorem get_all_data_raises_NameError (regs : Regs) :
    exceptIsError (get_all_data regs).1 = true ∧ (get_all_data regs).2 = [] :=
  ⟨rfl, rfl⟩

/-- C3: `get_temp` returns `raw / 340 + 36.53` with exact (non-truncating)
division of the two's-complement raw word; raw 0 gives exactly 36.53 and
raw 340 gives exactly 37.53. -/
theorem get_temp_formula (regs : Regs) (h l : Nat)
    (hh : h < 256) (hl : l < 256)
    (eh : regs TEMP_OUT0 = h) (el : regs (TEMP_OUT0 + 1) = l) :
    (get_temp regs).1 = (signExtend (h * 256 + l) : ℚ) / 340 + 36.53
      ∧ (get_temp zeroRegs).1 = 36.53
      ∧ (get_temp tempRegs340).1 = 37.53 := by
  refine ⟨?_, by norm_num [get_temp, read_i2c_word, TEMP_OUT0, zeroRegs],
    by norm_num [get_temp, read_i2c_word, TEMP_OUT0, TEMP_OUT1, tempRegs340,
      Nat.shiftLeft_eq]⟩
  simp only [get_temp]
  rw [read_i2c_word_val regs TEMP_OUT0 h l eh el]

/-- Witness for C3 at raw word 340 (`high = 1`, `low = 84`). -/
theorem get_temp_formula_witness :
    (get_temp tempRegs340).1 = (signExtend (1 * 256 + 84) : ℚ) / 340 + 36.53
      ∧ (get_temp zeroRegs).1 = 36.53
      ∧ (get_temp tempRegs340).1 = 37.53 :=
  get_temp_formula tempRegs340 1 84 (by decide) (by decide) (by decide) (by decide)

/-- C4: `get_accel_data` divides each raw axis sample by the resolved scale
modifier; with the g flag the divided values are returned as-is, and the
m/s^2 result is exactly the g result multiplied axis-wise by 9.80665.  Raw
axes (16384, -16384, 0) under the ±2g range give (1, -1, 0) in g and
(9.80665, -9.80665, 0) in m/s^2, with (x, y, z) order preserved. -/
theorem get_accel_data_unit_scaling (regs : Regs) :
    (get_accel_data regs PyFlag.pyFalse).1 =
      Option.map
        (fun v => (v.1 * GRAVITIY_MS2, v.2.1 * GRAVITIY_MS2, v.2.2 * GRAVITIY_MS2))
        (get_accel_data regs PyFlag.pyTrue).1
      ∧ (get_accel_data accelRegs2G PyFlag.pyTrue).1 = some (1, -1, 0)
      ∧ (get_accel_data accelRegs2G PyFlag.pyFalse).1 = some (9.80665, -9.80665, 0) := by
  refine ⟨rfl, ?_, ?_⟩
  · norm_num [get_accel_data, read_accel_range, read_i2c_word, accelRegs2G,
      ACCEL_XOUT0, ACCEL_YOUT0, ACCEL_ZOUT0, ACCEL_CONFIG,
      ACCEL_RANGE_2G, ACCEL_RANGE_4G, ACCEL_RANGE_8G, ACCEL_RANGE_16G,
      ACCEL_SCALE_MODIFIER_2G, Nat.shiftLeft_eq]
  · norm_num [get_accel_data, read_accel_range, read_i2c_word, accelRegs2G,
      ACCEL_XOUT0, ACCEL_YOUT0, ACCEL_ZOUT0, ACCEL_CONFIG,
      ACCEL_RANGE_2G, ACCEL_RANGE_4G, ACCEL_RANGE_8G, ACCEL_RANGE_16G,
      ACCEL_SCALE_MODIFIER_2G, GRAVITIY_MS2, Nat.shiftLeft_eq]
    decide

/-- C5 fails on the code: at the all-zero register file the accelerometer
measurement's bus trace reads the six raw sample bytes first and the range
configuration register last, so the bus sequence does not start with the
config-register read the claim requires. -/
theorem measurement_trace_counterexample :
    (get_accel_data zeroRegs PyFlag.pyTrue).2.1 =
      [BusOp.read ACCEL_XOUT0, BusOp.read ACCEL_XOUT1, BusOp.read ACCEL_YOUT0,
       BusOp.read ACCEL_YOUT1, BusOp.read ACCEL_ZOUT0, BusOp.read ACCEL_ZOUT1,
       BusOp.read ACCEL_CONFIG]
      ∧ ¬(get_accel_data zeroRegs PyFlag.pyTrue).2.1.head? =
          some (BusOp.read ACCEL_CONFIG) := by
  exact ⟨rfl, by decide⟩

/-- C5 amended: every acceleration / angular-rate measurement call reads the
six raw sample bytes first and then performs exactly one read of the range
configuration register as its final bus operation, resolving the scale and
dividing only after that read. -/
theorem measurement_trace_order (regs : Regs) (g : PyFlag) :
    (get_accel_data regs g).2.1 =
      [BusOp.read ACCEL_XOUT0, BusOp.read ACCEL_XOUT1, BusOp.read ACCEL_YOUT0,
       BusOp.read ACCEL_YOUT1, BusOp.read ACCEL_ZOUT0, BusOp.read ACCEL_ZOUT1,
       BusOp.read ACCEL_CONFIG]
      ∧ (get_gyro_data regs).2.1 =
      [BusOp.read GYRO_XOUT0, BusOp.read GYRO_XOUT1, BusOp.read GYRO_YOUT0,
       BusOp.read GYRO_YOUT1, BusOp.read GYRO_ZOUT0, BusOp.read GYRO_ZOUT1,
       BusOp.read GYRO_CONFIG] :=
  ⟨rfl, rfl⟩

/-- C6: with the flag exactly `False`, `read_accel_range` maps the four
known config bytes to 2/4/8/16 and every other byte to -1, always returning
a value (never an exception); `read_gyro_range` symmetrically returns
250/500/1000/2000 or -1. -/
theorem read_range_fallback (regs : Regs) :
    ((regs ACCEL_CONFIG = ACCEL_RANGE_2G →
        (read_accel_range regs PyFlag.pyFalse).1 = some 2)
      ∧ (regs ACCEL_CONFIG = ACCEL_RANGE_4G →
        (read_accel_range regs PyFlag.pyFalse).1 = some 4)
      ∧ (regs ACCEL_CONFIG = ACCEL_RANGE_8G →
        (read_accel_range regs PyFlag.pyFalse).1 = some 8)
      ∧ (regs ACCEL_CONFIG = ACCEL_RANGE_16G →
        (read_accel_range regs PyFlag.pyFalse).1 = some 16)
      ∧ (regs ACCEL_CONFIG ∉
          ([ACCEL_RANGE_2G, ACCEL_RANGE_4G, ACCEL_RANGE_8G, ACCEL_RANGE_16G] : List Nat) →
        (read_accel_range regs PyFlag.pyFalse).1 = some (-1))
      ∧ (read_accel_range regs PyFlag.pyFalse).1 ≠ none)
    ∧ ((regs GYRO_CONFIG = GYRO_RANGE_250DEG →
        (read_gyro_range regs PyFlag.pyFalse).1 = some 250)
      ∧ (regs GYRO_CONFIG = GYRO_RANGE_500DEG →
        (read_gyro_range regs PyFlag.pyFalse).1 = some 500)
      ∧ (regs GYRO_CONFIG = GYRO_RANGE_1000DEG →
        (read_gyro_range regs PyFlag.pyFalse).1 = some 1000)
      ∧ (regs GYRO_CONFIG = GYRO_RANGE_2000DEG →
        (read_gyro_range regs PyFlag.pyFalse).1 = some 2000)
      ∧ (regs GYRO_CONFIG ∉
          ([GYRO_RANGE_250DEG, GYRO_RANGE_500DEG, GYRO_RANGE_1000DEG, GYRO_RANGE_2000DEG] : List Nat) →
        (read_gyro_range regs PyFlag.pyFalse).1 = some (-1))
      ∧ (read_gyro_range regs PyFlag.pyFalse).1 ≠ none) := by
  have hA : ∀ b : Nat, b ∉ ([ACCEL_RANGE_2G, ACCEL_RANGE_4G, ACCEL_RANGE_8G,
      ACCEL_RANGE_16G] : List Nat) → b ≠ 0 ∧ b ≠ 8 ∧ b ≠ 16 ∧ b ≠ 24 := by
    intro b hb
    simp [ACCEL_RANGE_2G, ACCEL_RANGE_4G, ACCEL_RANGE_8G, ACCEL_RANGE_16G,
      not_or] at hb
    exact hb
  have hG : ∀ b : Nat, b ∉ ([GYRO_RANGE_250DEG, GYRO_RANGE_500DEG, GYRO_RANGE_1000DEG,
      GYRO_RANGE_2000DEG] : List Nat) → b ≠ 0 ∧ b ≠ 8 ∧ b ≠ 16 ∧ b ≠ 24 := by
    intro b hb
    simp [GYRO_RANGE_250DEG, GYRO_RANGE_500DEG, GYRO_RANGE_1000DEG, GYRO_RANGE_2000DEG,
      not_or] at hb
    exact hb
  refine ⟨⟨?_, ?_, ?_, ?_, ?_, ?_⟩, ?_, ?_, ?_, ?_, ?_, ?_⟩
  · intro h
    simp [read_accel_range, h, ACCEL_RANGE_2G]
  · intro h
    simp [read_accel_range, h, ACCEL_RANGE_2G, ACCEL_RANGE_4G]
  · intro h
    simp [read_accel_range, h, ACCEL_RANGE_2G, ACCEL_RANGE_4G, ACCEL_RANGE_8G]
  · intro h
    simp [read_accel_range, h, ACCEL_RANGE_2G, ACCEL_RANGE_4G, ACCEL_RANGE_8G,
      ACCEL_RANGE_16G]
  · intro h
    obtain ⟨h1, h2, h3, h4⟩ := hA _ h
    simp [read_accel_range, h1, h2, h3, h4,
      ACCEL_RANGE_2G, ACCEL_RANGE_4G, ACCEL_RANGE_8G, ACCEL_RANGE_16G]
  · simp [read_accel_range]
  · intro h
    simp [read_gyro_range, h, GYRO_RANGE_250DEG]
  · intro h
    simp [read_gyro_range, h, GYRO_RANGE_250DEG, GYRO_RANGE_500DEG]
  · intro h
    simp [read_gyro_range, h, GYRO_RANGE_250DEG, GYRO_RANGE_500DEG, GYRO_RANGE_1000DEG]
  · intro h
    simp [read_gyro_range, h, GYRO_RANGE_250DEG, GYRO_RANGE_500DEG, GYRO_RANGE_1000DEG,
      GYRO_RANGE_2000DEG]
  · intro h
    obtain ⟨h1, h2, h3, h4⟩ := hG _ h
    simp [read_gyro_range, h1, h2, h3, h4,
      GYRO_RANGE_250DEG, GYRO_RANGE_500DEG, GYRO_RANGE_1000DEG, GYRO_RANGE_2000DEG]
  · simp [read_gyro_range]

/-- Witness for C6: the unknown byte `0x05` maps to -1 and the known byte
`0x00` maps to 2 (accel) and 250 (gyro). -/
theorem read_range_fallback_witness :
    (read_accel_range unknownRangeRegs PyFlag.pyFalse).1 = some (-1)
      ∧ (read_gyro_range unknownRangeRegs PyFlag.pyFalse).1 = some (-1)
      ∧ (read_accel_range zeroRegs PyFlag.pyFalse).1 = some 2
      ∧ (read_gyro_range zeroRegs PyFlag.pyFalse).1 = some 250 :=
  ⟨(read_range_fallback unknownRangeRegs).1.2.2.2.2.1 (by decide),
   (read_range_fallback unknownRangeRegs).2.2.2.2.2.1 (by decide),
   (read_range_fallback zeroRegs).1.1 (by decide),
   (read_range_fallback zeroRegs).2.1 (by decide)⟩

/-- C7: when the configuration byte matches none of the four known range
encodings, the measurement calls still succeed: they fall back to the
smallest-range scale modifier (16384.0 for accel, 131.0 for gyro), emit the
diagnostic warning, and return the scaled result. -/
theorem unknown_range_scale_fallback (regs : Regs)
    (ha : regs ACCEL_CONFIG ∉
      ([ACCEL_RANGE_2G, ACCEL_RANGE_4G, ACCEL_RANGE_8G, ACCEL_RANGE_16G] : List Nat))
    (hg : regs GYRO_CONFIG ∉
      ([GYRO_RANGE_250DEG, GYRO_RANGE_500DEG, GYRO_RANGE_1000DEG, GYRO_RANGE_2000DEG] : List Nat)) :
    ACCEL_SCALE_MODIFIER_2G = 16384
      ∧ GYRO_SCALE_MODIFIER_250DEG = 131
      ∧ (get_accel_data regs PyFlag.pyTrue).1 =
        some (((read_i2c_word regs ACCEL_XOUT0).1 : ℚ) / ACCEL_SCALE_MODIFIER_2G,
              ((read_i2c_word regs ACCEL_YOUT0).1 : ℚ) / ACCEL_SCALE_MODIFIER_2G,
              ((read_i2c_word regs ACCEL_ZOUT0).1 : ℚ) / ACCEL_SCALE_MODIFIER_2G)
      ∧ (get_accel_data regs PyFlag.pyTrue).2.2 =
        ["Unkown range - accelScaleModifier set to self.ACCEL_SCALE_MODIFIER_2G"]
      ∧ (get_gyro_data regs).1 =
        (((read_i2c_word regs GYRO_XOUT0).1 : ℚ) / GYRO_SCALE_MODIFIER_250DEG,
         ((read_i2c_word regs GYRO_YOUT0).1 : ℚ) / GYRO_SCALE_MODIFIER_250DEG,
         ((read_i2c_word regs GYRO_ZOUT0).1 : ℚ) / GYRO_SCALE_MODIFIER_250DEG)
      ∧ (get_gyro_data regs).2.2 =
        ["Unkown range - gyroScaleModifier set to self.GYRO_SCALE_MODIFIER_250DEG"] := by
  have hacN : regs ACCEL_CONFIG ≠ 0 ∧ regs ACCEL_CONFIG ≠ 8
      ∧ regs ACCEL_CONFIG ≠ 16 ∧ regs ACCEL_CONFIG ≠ 24 := by
    simp [ACCEL_RANGE_2G, ACCEL_RANGE_4G, ACCEL_RANGE_8G, ACCEL_RANGE_16G,
      not_or] at ha
    exact ha
  have hgcN : regs GYRO_CONFIG ≠ 0 ∧ regs GYRO_CONFIG ≠ 8
      ∧ regs GYRO_CONFIG ≠ 16 ∧ regs GYRO_CONFIG ≠ 24 := by
    simp [GYRO_RANGE_250DEG, GYRO_RANGE_500DEG, GYRO_RANGE_1000DEG, GYRO_RANGE_2000DEG,
      not_or] at hg
    exact hg
  have hac : ((regs ACCEL_CONFIG : Int) ≠ 0) ∧ ((regs ACCEL_CONFIG : Int) ≠ 8)
      ∧ ((regs ACCEL_CONFIG : Int) ≠ 16) ∧ ((regs ACCEL_CONFIG : Int) ≠ 24) := by
    obtain ⟨a1, a2, a3, a4⟩ := hacN
    refine ⟨?_, ?_, ?_, ?_⟩ <;> exact_mod_cast (by assumption)
  have hgc : ((regs GYRO_CONFIG : Int) ≠ 0) ∧ ((regs GYRO_CONFIG : Int) ≠ 8)
      ∧ ((regs GYRO_CONFIG : Int) ≠ 16) ∧ ((regs GYRO_CONFIG : Int) ≠ 24) := by
    obtain ⟨g1, g2, g3, g4⟩ := hgcN
    refine ⟨?_, ?_, ?_, ?_⟩ <;> exact_mod_cast (by assumption)
  refine ⟨by norm_num [ACCEL_SCALE_MODIFIER_2G], by norm_num [GYRO_SCALE_MODIFIER_250DEG],
    ?_, ?_, ?_, ?_⟩ <;>
    simp [get_accel_data, get_gyro_data, read_accel_range, read_gyro_range,
      hac.1, hac.2.1, hac.2.2.1, hac.2.2.2, hgc.1, hgc.2.1, hgc.2.2.1, hgc.2.2.2,
      ACCEL_RANGE_2G, ACCEL_RANGE_4G, ACCEL_RANGE_8G, ACCEL_RANGE_16G,
      GYRO_RANGE_250DEG, GYRO_RANGE_500DEG, GYRO_RANGE_1000DEG, GYRO_RANGE_2000DEG]

/-- Witness for C7 at the register file whose configuration bytes are the
unknown value `0x05`. -/
theorem unknown_range_scale_fallback_witness :
    ACCEL_SCALE_MODIFIER_2G = 16384
      ∧ GYRO_SCALE_MODIFIER_250DEG = 131
      ∧ (get_accel_data unknownRangeRegs PyFlag.pyTrue).1 =
        some (((read_i2c_word unknownRangeRegs ACCEL_XOUT0).1 : ℚ) / ACCEL_SCALE_MODIFIER_2G,
              ((read_i2c_word unknownRangeRegs ACCEL_YOUT0).1 : ℚ) / ACCEL_SCALE_MODIFIER_2G,
              ((read_i2c_word unknownRangeRegs ACCEL_ZOUT0).1 : ℚ) / ACCEL_SCALE_MODIFIER_2G)
      ∧ (get_accel_data unknownRangeRegs PyFlag.pyTrue).2.2 =
        ["Unkown range - accelScaleModifier set to self.ACCEL_SCALE_MODIFIER_2G"]
      ∧ (get_gyro_data unknownRangeRegs).1 =
        (((read_i2c_word unknownRangeRegs GYRO_XOUT0).1 : ℚ) / GYRO_SCALE_MODIFIER_250DEG,
         ((read_i2c_word unknownRangeRegs GYRO_YOUT0).1 : ℚ) / GYRO_SCALE_MODIFIER_250DEG,
         ((read_i2c_word unknownRangeRegs GYRO_ZOUT0).1 : ℚ) / GYRO_SCALE_MODIFIER_250DEG)
      ∧ (get_gyro_data unknownRangeRegs).2.2 =
        ["Unkown range - gyroScaleModifier set to self.GYRO_SCALE_MODIFIER_250DEG"] :=
  unknown_range_scale_fallback unknownRangeRegs (by decide) (by decide)

/-- C8: for each of the four defined accel ranges, `set_accel_range`
followed by `read_accel_range` with the raw flag returns exactly the byte
encoding that was set. -/
theorem set_read_accel_range_roundtrip (regs : Regs) (R : Nat)
    (hR : R ∈ ([ACCEL_RANGE_2G, ACCEL_RANGE_4G, ACCEL_RANGE_8G, ACCEL_RANGE_16G] : List Nat)) :
    (read_accel_range (set_accel_range regs R).1 PyFlag.pyTrue).1 = some (R : Int) := by
  clear hR
  simp [read_accel_range, set_accel_range, writeByteData]

/-- Witness for C8 at the ±16g encoding `0x18`. -/
theorem set_read_accel_range_roundtrip_witness :
    (read_accel_range (set_accel_range zeroRegs 0x18).1 PyFlag.pyTrue).1 = some (0x18 : Int) :=
  set_read_accel_range_roundtrip zeroRegs 0x18 (by decide)

/-- C9: `set_accel_range` performs exactly the two bus writes 0x00 then the
requested encoding, both to `ACCEL_CONFIG`, and leaves every other register
untouched; `set_gyro_range` does the identical two-step pattern on
`GYRO_CONFIG`. -/
theorem set_range_two_writes_frame (regs : Regs) (R : Nat) :
    (set_accel_range regs R).2 =
      [BusOp.write ACCEL_CONFIG 0x00, BusOp.write ACCEL_CONFIG R]
      ∧ (∀ r, r ≠ ACCEL_CONFIG → (set_accel_range regs R).1 r = regs r)
      ∧ (set_gyro_range regs R).2 =
      [BusOp.write GYRO_CONFIG 0x00, BusOp.write GYRO_CONFIG R]
      ∧ (∀ r, r ≠ GYRO_CONFIG → (set_gyro_range regs R).1 r = regs r) := by
  refine ⟨rfl, ?_, rfl, ?_⟩ <;>
    · intro r hr
      simp [set_accel_range, set_gyro_range, writeByteData, hr]

/-- Witness for C9: setting range `0x08` from the all-zero register file
leaves the power-management register unchanged. -/
theorem set_range_two_writes_frame_witness :
    (set_accel_range zeroRegs 0x08).2 =
      [BusOp.write ACCEL_CONFIG 0x00, BusOp.write ACCEL_CONFIG 0x08]
      ∧ (set_accel_range zeroRegs 0x08).1 PWR_MGMT_1 = zeroRegs PWR_MGMT_1
      ∧ (set_gyro_range zeroRegs 0x08).2 =
      [BusOp.write GYRO_CONFIG 0x00, BusOp.write GYRO_CONFIG 0x08]
      ∧ (set_gyro_range zeroRegs 0x08).1 PWR_MGMT_1 = zeroRegs PWR_MGMT_1 :=
  ⟨(set_range_two_writes_frame zeroRegs 0x08).1,
   (set_range_two_writes_frame zeroRegs 0x08).2.1 PWR_MGMT_1 (by decide),
   (set_range_two_writes_frame zeroRegs 0x08).2.2.1,
   (set_range_two_writes_frame zeroRegs 0x08).2.2.2 PWR_MGMT_1 (by decide)⟩

/-- C10: for any flag that is not exactly the boolean `True` or `False`
(e.g. a truthy integer), `get_accel_data`, `read_accel_range`, and
`read_gyro_range` take neither identity-checked branch and return `None`. -/
theorem nonbool_flag_returns_none (regs : Regs) (f : PyFlag)
    (h1 : f ≠ PyFlag.pyTrue) (h2 : f ≠ PyFlag.pyFalse) :
    (get_accel_data regs f).1 = none
      ∧ (read_accel_range regs f).1 = none
      ∧ (read_gyro_range regs f).1 = none := by
  refine ⟨?_, ?_, ?_⟩ <;>
    simp [get_accel_data, read_accel_range, read_gyro_range, h1, h2]

/-- Witness for C10 at the truthy integer flag `1`. -/
theorem nonbool_flag_returns_none_witness :
    (get_accel_data zeroRegs (PyFlag.pyInt 1)).1 = none
      ∧ (read_accel_range zeroRegs (PyFlag.pyInt 1)).1 = none
      ∧ (read_gyro_range zeroRegs (PyFlag.pyInt 1)).1 = none :=
  nonbool_flag_returns_none zeroRegs (PyFlag.pyInt 1) (by decide) (by decide)

end MPU6050
